import Mathlib

/-!
# Verification of the vn-traffic-violation-lookup repository

A shallow embedding of the data model and the operations of the
traffic-violation lookup system (TypeScript), together with theorems
settling the specification claims.

Conventions:
* TypeScript `undefined`/optional fields become `Option`.
* Thrown `Error(msg)` values become `Except.error msg`: throughout the
  retry orchestrator the code branches only on the error *message*
  (`error.message.includes(...)`), so errors are modelled by their
  message strings.
* Machine-level details irrelevant to the claims (timers, logging side
  channels, the actual HTTP transport) are modelled as explicit data:
  the network is an oracle (`AttemptEnv`), `console.warn` lines are an
  explicit output list, and cookie-jar allocation is a counter.
-/

namespace VnTraffic

/-- `Violation` from `src/types` (part_008): one traffic-violation record.
`plate` and `violationNumber` are required, everything else optional. -/
structure Violation where
  plate : String
  violationNumber : Nat
  plateColor : Option String := none
  vehicleType : Option String := none
  violationTime : Option String := none
  location : Option String := none
  violation : Option String := none
  status : Option String := none
  resolutionPlace : Option String := none
  resolutionDepartment : Option String := none
  resolutionAddress : Option String := none
  resolutionPhone : Option String := none
  fine : Option String := none
  message : Option String := none
  rawPreview : Option String := none
deriving DecidableEq, Repr

/-- `CronJobExecutionService.getViolationKey` (cronJobExecutionService.ts:189-192):
`` `${violation.violationNumber || ''}-${violation.violationTime || ''}` ``.
JS `||`: the number `0` and the empty string are falsy and yield `''`. -/
def getViolationKey (v : Violation) : String :=
  (if v.violationNumber = 0 then "" else toString v.violationNumber)
    ++ "-" ++ v.violationTime.getD ""

/-- Return type of `CronJobExecutionService.compareViolations`. -/
structure CompareOut where
  hasChanges : Bool
  newViolations : List Violation
  removedViolations : List Violation
deriving DecidableEq, Repr

/-- `Map.has` on a map built from a list of `(key, value)` pairs:
true iff some entry has that key. -/
def mapHasKey (entries : List (String × Violation)) (k : String) : Bool :=
  entries.any (fun e => e.1 == k)

/-- `CronJobExecutionService.compareViolations` (cronJobExecutionService.ts:159-184):
build key→violation maps from both sides, filter each side by absence of
its key in the other map, and set `hasChanges` when either list is non-empty. -/
def compareViolations (previous current : List Violation) : CompareOut :=
  let previousMap := previous.map (fun v => (getViolationKey v, v))
  let currentMap := current.map (fun v => (getViolationKey v, v))
  let newViolations := current.filter (fun v => !(mapHasKey previousMap (getViolationKey v)))
  let removedViolations := previous.filter (fun v => !(mapHasKey currentMap (getViolationKey v)))
  { hasChanges := decide (0 < newViolations.length) || decide (0 < removedViolations.length)
    newViolations := newViolations
    removedViolations := removedViolations }

/-- Set difference `B \ A` under the identity key, written from the spec's
words ("anything in current-not-in-previous is added, anything in
previous-not-in-current is removed", §4.5/§8), for comparison with
`compareViolations`. -/
def specSetDiffByKey (B A : List Violation) : List Violation :=
  B.filter (fun v => !(A.any (fun w => getViolationKey w == getViolationKey v)))

/-- `LookupData` from `src/types` (part_008). -/
structure LookupData where
  plate : String
  vehicleType : String
  captcha : Option String := none
  violations : Option (List Violation) := none
  totalViolations : Option Nat := none
  totalPaidViolations : Option Nat := none
  totalUnpaidViolations : Option Nat := none
  lookupTime : Option String := none
  source : Option String := none
  totalRetryCaptcha : Option Nat := none
deriving DecidableEq, Repr

/-- `'ok' | 'error'` status of a `LookupResult`. -/
inductive LookupStatus where
  | ok
  | error
deriving DecidableEq, Repr

/-- `LookupResult` from `src/types` (part_008). -/
structure LookupResult where
  status : LookupStatus
  message : Option String := none
  data : Option LookupData := none
deriving DecidableEq, Repr

/-- `CronJobComparisonResult` (cronJobExecutionService.ts:16-23). -/
structure ComparisonResult where
  hasChanges : Bool
  newViolations : List Violation
  removedViolations : List Violation
  totalViolations : Nat
  totalPaidViolations : Nat
  totalUnpaidViolations : Nat
deriving DecidableEq, Repr

/-- `currentResult.data?.violations || []` (empty array is truthy in JS,
so only a missing field falls back to `[]`). -/
def violationsOf (r : LookupResult) : List Violation :=
  match r.data with
  | some d => d.violations.getD []
  | none => []

/-- `currentResult.data?.<count> || 0` (`0` is falsy, so the fallback
coincides with `getD 0`). -/
def countOf (f : LookupData → Option Nat) (r : LookupResult) : Nat :=
  match r.data with
  | some d => (f d).getD 0
  | none => 0

/-- `CronJobExecutionService.compareWithPreviousLookup`
(cronJobExecutionService.ts:106-154).  The previous history row is
modelled as `Option (List Violation)`: `none` is the
`!historyResult.success` branch (no previous lookup), `some prev` the
branch that parses the stored snapshot and diffs against it. -/
def compareWithPreviousLookup (history : Option (List Violation))
    (currentResult : LookupResult) : ComparisonResult :=
  match history with
  | none =>
    { hasChanges := true
      newViolations := violationsOf currentResult
      removedViolations := []
      totalViolations := countOf (·.totalViolations) currentResult
      totalPaidViolations := countOf (·.totalPaidViolations) currentResult
      totalUnpaidViolations := countOf (·.totalUnpaidViolations) currentResult }
  | some previousViolations =>
    let comparison := compareViolations previousViolations (violationsOf currentResult)
    { hasChanges := comparison.hasChanges
      newViolations := comparison.newViolations
      removedViolations := comparison.removedViolations
      totalViolations := countOf (·.totalViolations) currentResult
      totalPaidViolations := countOf (·.totalPaidViolations) currentResult
      totalUnpaidViolations := countOf (·.totalUnpaidViolations) currentResult }

/-- C3 counterexample data: two violations identical in every
lookup-stable field (time, location, description, status) that differ
only in the per-lookup sequence number. -/
def c3violA : Violation :=
  { plate := "51K67179"
    violationNumber := 1
    violationTime := some "07:30, 12/08/2025"
    location := some "Nguyen Trai - Khuat Duy Tien"
    violation := some "Vuot den do" }

/-- Same record as `c3violA` but carrying sequence number 2, as happens
when the same real-world violation appears at a different position in a
later lookup. -/
def c3violB : Violation :=
  { c3violA with violationNumber := 2 }

/-- JS `String.prototype.toLowerCase` on one character, restricted to the
alphabets occurring in this repository's phrase sets: ASCII `A`-`Z`, the
Latin-1 uppercase range, and the precomposed Vietnamese uppercase
letters (`Ă Đ Ĩ Ũ Ơ Ư` and the U+1EA0–U+1EF9 block, where the uppercase
code point is even and its lowercase partner is the next odd one).
Characters outside these ranges are unchanged. -/
def jsCharToLower (c : Char) : Char :=
  let n := c.toNat
  if 65 ≤ n ∧ n ≤ 90 then Char.ofNat (n + 32)
  else if 0xC0 ≤ n ∧ n ≤ 0xDE ∧ n ≠ 0xD7 then Char.ofNat (n + 32)
  else if n = 0x102 ∨ n = 0x110 ∨ n = 0x128 ∨ n = 0x168 ∨ n = 0x1A0 ∨ n = 0x1AF then
    Char.ofNat (n + 1)
  else if 0x1EA0 ≤ n ∧ n ≤ 0x1EF8 ∧ n % 2 = 0 then Char.ofNat (n + 1)
  else c

/-- JS `s.toLowerCase()`. -/
def jsToLower (s : String) : String :=
  String.mk (s.toList.map jsCharToLower)

/-- `pat` occurs as a contiguous run inside the list. -/
def listHasInfix (pat : List Char) : List Char → Bool
  | [] => pat.isPrefixOf []
  | c :: t => pat.isPrefixOf (c :: t) || listHasInfix pat t

/-- JS `s.includes(pat)`: substring containment.  All characters involved
here lie in the Basic Multilingual Plane, so JS code-unit indexing
coincides with character indexing. -/
def jsIncludes (s pat : String) : Bool :=
  listHasInfix pat.toList s.toList

/-- `isPaid` from `calculateViolationCounts` (htmlParser.ts:107-117):
falsy status is neither; otherwise case-insensitive substring match
against the "paid" phrase set. -/
def isPaid (status : Option String) : Bool :=
  match status with
  | none => false
  | some st =>
    if st = "" then false
    else
      let s := jsToLower st
      jsIncludes s "đã xử phạt" || jsIncludes s "đã nộp" || jsIncludes s "paid" ||
        jsIncludes s "processed" || jsIncludes s "resolved"

/-- `isUnpaid` from `calculateViolationCounts` (htmlParser.ts:119-129). -/
def isUnpaid (status : Option String) : Bool :=
  match status with
  | none => false
  | some st =>
    if st = "" then false
    else
      let s := jsToLower st
      jsIncludes s "chưa xử phạt" || jsIncludes s "chưa nộp" || jsIncludes s "not" ||
        jsIncludes s "unpaid" || jsIncludes s "not yet"

/-- `ViolationCounts` from `src/types` (part_008). -/
structure ViolationCounts where
  totalPaidViolations : Nat
  totalUnpaidViolations : Nat
deriving DecidableEq, Repr

/-- `calculateViolationCounts` (htmlParser.ts:106-138): a `reduce` summing
an indicator over the list for each bucket. -/
def calculateViolationCounts (violations : List Violation) : ViolationCounts :=
  { totalPaidViolations :=
      violations.foldl (fun acc v => acc + (if isPaid v.status then 1 else 0)) 0
    totalUnpaidViolations :=
      violations.foldl (fun acc v => acc + (if isUnpaid v.status then 1 else 0)) 0 }

/-- The OCR engine's output (`worker.recognize`): raw text and a
confidence score in percent.  The engine itself is an external
collaborator (spec §1); the adapter's post-processing is what is
embedded.  The confidence is modelled as a whole percent. -/
structure OcrResult where
  text : String
  confidence : Nat
deriving DecidableEq, Repr

/-- The static character-confusion table of `solveWithTesseract`
(captchaSolver.ts:68-79). -/
def ocrCorrection (c : Char) : Option Char :=
  match c with
  | '0' => some 'O'
  | '1' => some 'l'
  | '5' => some 'S'
  | '6' => some 'G'
  | '8' => some 'B'
  | 'l' => some '1'
  | 'O' => some '0'
  | 'S' => some '5'
  | 'G' => some '6'
  | 'B' => some '8'
  | _ => none

/-- `cleanedText.split('').map(correct).join('')`. -/
def applyCorrections (s : String) : String :=
  String.mk (s.toList.map (fun c => (ocrCorrection c).getD c))

/-- `text.trim().replace(/\s+/g, '')`: trimming followed by deleting
every remaining whitespace run deletes all whitespace characters. -/
def cleanWhitespace (s : String) : String :=
  String.mk (s.toList.filter (fun c => !(c == ' ' || c == '\t' || c == '\n' || c == '\r')))

/-- Everything `solveWithTesseract` produces: the value returned to the
caller (or the thrown error message), plus the `console.warn` lines it
emits, kept separate because they never reach the caller. -/
structure TesseractRun where
  result : Except String String
  warnings : List String
deriving Repr

/-- `solveWithTesseract` (captchaSolver.ts:19-99) as a function of the
OCR engine's output: clean whitespace, reject empty text, warn (only)
below 30% confidence, warn on unusual length, and apply the
character-confusion table below 50% confidence. -/
def solveWithTesseract (ocr : OcrResult) : TesseractRun :=
  let cleanedText := cleanWhitespace ocr.text
  if cleanedText = "" then
    { result := Except.error "Tesseract OCR failed to extract text from captcha image"
      warnings := [] }
  else
    let w1 : List String :=
      if ocr.confidence < 30 then
        ["[WARN] Low confidence score: " ++ toString ocr.confidence
          ++ "% - result might be inaccurate"]
      else []
    let w2 : List String :=
      if cleanedText.length < 3 || cleanedText.length > 10 then
        w1 ++ ["[WARN] Unusual captcha length: " ++ toString cleanedText.length
          ++ " characters"]
      else w1
    let correctedText :=
      if ocr.confidence < 50 then applyCorrections cleanedText else cleanedText
    { result := Except.ok correctedText, warnings := w2 }

/-- One `.form-group` element as the cheerio queries of
`parseResultHtml` observe it: `$(el).text()`, the `label` child's text
and the `.col-md-9` child's text, each already trimmed. -/
structure FormGroup where
  text : String
  label : String
  value : String
deriving DecidableEq, Repr

/-- The cheerio view of a result page: the raw HTML string plus what
`$('#bodyPrint123, #bodyPrint')` finds — whether the container matched
(`.length > 0`) and the `.form-group` elements inside it.  The HTML
parsing itself is the external cheerio library; its output is the input
of the embedded logic. -/
structure HtmlDoc where
  raw : String
  containerPresent : Bool
  formGroups : List FormGroup
deriving DecidableEq, Repr

/-- `Partial<Violation>` as accumulated by the form-group loop: exactly
the fields the loop can assign. -/
structure PartialViolation where
  plate : Option String := none
  violationNumber : Option Nat := none
  plateColor : Option String := none
  vehicleType : Option String := none
  violationTime : Option String := none
  location : Option String := none
  violation : Option String := none
  status : Option String := none
  resolutionPlace : Option String := none
  resolutionDepartment : Option String := none
  resolutionAddress : Option String := none
  resolutionPhone : Option String := none
deriving DecidableEq, Repr

/-- `Object.keys(currentViolation).length > 0` is false exactly when no
field has been assigned. -/
def PartialViolation.isUnset (p : PartialViolation) : Bool :=
  p.plate.isNone && p.violationNumber.isNone && p.plateColor.isNone &&
  p.vehicleType.isNone && p.violationTime.isNone && p.location.isNone &&
  p.violation.isNone && p.status.isNone && p.resolutionPlace.isNone &&
  p.resolutionDepartment.isNone && p.resolutionAddress.isNone &&
  p.resolutionPhone.isNone

/-- The `{...currentViolation} as Violation` cast: absent required fields
(possible when a block lacks a plate label) surface as JS `undefined`,
modelled by the neutral values `""` and `0`. -/
def PartialViolation.toViolation (p : PartialViolation) : Violation :=
  { plate := p.plate.getD ""
    violationNumber := p.violationNumber.getD 0
    plateColor := p.plateColor
    vehicleType := p.vehicleType
    violationTime := p.violationTime
    location := p.location
    violation := p.violation
    status := p.status
    resolutionPlace := p.resolutionPlace
    resolutionDepartment := p.resolutionDepartment
    resolutionAddress := p.resolutionAddress
    resolutionPhone := p.resolutionPhone }

/-- JS `text.replace(first, '')` for a literal pattern replaces only the
first occurrence. -/
def jsReplaceFirst (s pat : String) : String :=
  match s.toList, pat.toList with
  | cs, ps =>
    let rec go : List Char → List Char
      | [] => []
      | c :: t => if ps.isPrefixOf (c :: t) then (c :: t).drop ps.length
                  else c :: go t
    String.mk (go cs)

/-- JS `String.prototype.trim`. -/
def jsTrim (s : String) : String :=
  String.mk ((s.toList.dropWhile (fun c => c == ' ' || c == '\t' || c == '\n' || c == '\r')).reverse.dropWhile
    (fun c => c == ' ' || c == '\t' || c == '\n' || c == '\r') |>.reverse)

/-- State of the `formGroups.each` loop: the violation being built, the
running `violationCount`, and the pushed records. -/
structure ParseState where
  current : PartialViolation
  count : Nat
  acc : List Violation
deriving Repr

/-- One iteration of the `formGroups.each` callback
(htmlParser.ts:38-74): a plate label closes the open block and starts a
new one; other labels assign the matching field; label-less texts are
matched by distinctive substrings. -/
def parseStep (st : ParseState) (fg : FormGroup) : ParseState :=
  if jsIncludes fg.label "Biển kiểm soát" then
    let acc' := if st.current.isUnset then st.acc else st.acc ++ [st.current.toViolation]
    { current := { plate := some fg.value, violationNumber := some (st.count + 1) }
      count := st.count + 1
      acc := acc' }
  else if jsIncludes fg.label "Màu biển" then
    { st with current := { st.current with plateColor := some fg.value } }
  else if jsIncludes fg.label "Loại phương tiện" then
    { st with current := { st.current with vehicleType := some fg.value } }
  else if jsIncludes fg.label "Thời gian vi phạm" then
    { st with current := { st.current with violationTime := some fg.value } }
  else if jsIncludes fg.label "Địa điểm vi phạm" then
    { st with current := { st.current with location := some fg.value } }
  else if jsIncludes fg.label "Hành vi vi phạm" then
    { st with current := { st.current with violation := some fg.value } }
  else if jsIncludes fg.label "Trạng thái" then
    { st with current := { st.current with status := some fg.value } }
  else if jsIncludes fg.label "Nơi giải quyết" then
    { st with current := { st.current with resolutionPlace := some fg.value } }
  else if fg.text != "" && (fg.label == "") && jsIncludes fg.text "Đội CSGT" then
    { st with current := { st.current with resolutionDepartment := some fg.text } }
  else if fg.text != "" && (fg.label == "") && jsIncludes fg.text "Địa chỉ:" then
    { st with current :=
        { st.current with resolutionAddress := some (jsTrim (jsReplaceFirst fg.text "Địa chỉ:")) } }
  else if fg.text != "" && (fg.label == "") && jsIncludes fg.text "Số điện thoại" then
    { st with current :=
        { st.current with resolutionPhone := some (jsTrim (jsReplaceFirst fg.text "Số điện thoại liên hệ:")) } }
  else st

/-- The structured phase of `parseResultHtml` (htmlParser.ts:29-80): when
the container matched, run the form-group loop and push the last open
block. -/
def parseStructured (doc : HtmlDoc) : List Violation :=
  if doc.containerPresent then
    let final := doc.formGroups.foldl parseStep { current := {}, count := 0, acc := [] }
    if final.current.isUnset then final.acc else final.acc ++ [final.current.toViolation]
  else []

/-- Index of the first occurrence of `pat`, or `none`. -/
def firstIdxOf (pat : List Char) : List Char → Option Nat
  | [] => if pat.isPrefixOf [] then some 0 else none
  | c :: t =>
    if pat.isPrefixOf (c :: t) then some 0
    else (firstIdxOf pat t).map (fun n => n + 1)

/-- JS `s.indexOf(pat)`: first occurrence or `-1`. -/
def jsIndexOf (s pat : String) : Int :=
  match firstIdxOf pat.toList s.toList with
  | some n => (n : Int)
  | none => -1

/-- JS `s.substring(a, b)`: clamp both arguments into `[0, length]`,
swap if out of order, and slice. -/
def jsSubstring (s : String) (a b : Int) : String :=
  let len : Int := (s.toList.length : Int)
  let clamp : Int → Nat := fun x => (min (max x 0) len).toNat
  let lo := min (clamp a) (clamp b)
  let hi := max (clamp a) (clamp b)
  String.mk ((s.toList.drop lo).take (hi - lo))

/-- The sentinel record pushed by the fallback branch of
`parseResultHtml` (htmlParser.ts:85-95). -/
def fallbackViolation (html : String) : Violation :=
  { plate := ""
    violationNumber := 0
    message := some "Violation found - need to parse HTML structure in more detail"
    rawPreview := some (jsSubstring html (jsIndexOf html "Biển kiểm soát")
      (jsIndexOf html "Biển kiểm soát" + 500)) }

/-- `parseResultHtml` (htmlParser.ts:11-99): the structured phase, then —
only when it produced nothing — the "Đội CSGT" fallback. -/
def parseResultHtml (doc : HtmlDoc) : List Violation :=
  let violations := parseStructured doc
  if violations.length = 0 then
    if jsIncludes doc.raw "Đội CSGT" then violations ++ [fallbackViolation doc.raw]
    else violations
  else violations

/-- `LookupOptions` from `src/types` (part_008); `saveCaptcha` is unused
by the embedded logic. -/
structure LookupOptions where
  captchaText : Option String := none
deriving DecidableEq, Repr

/-- JS truthiness of a `string | undefined` value: `undefined` and `''`
are falsy. -/
def optTruthy : Option String → Bool
  | some s => s != ""
  | none => false

/-- The external site and OCR engine for one pipeline attempt, as an
oracle: the outcomes of `initSession`, `fetchCaptchaImage`, the
automatic `solveCaptcha`, `validateCaptchaAjax` (already wrapped into
the repository's message strings) and `fetchLookupResult` (returning the
cheerio view of the HTML). -/
structure AttemptEnv where
  initSession : Except String Unit
  fetchCaptcha : Except String String
  solve : String → Except String String
  validate : String → String → String → Except String (Option String)
  fetchResult : Option String → Except String HtmlDoc

/-- Observable facts about one `lookupViolations` invocation: how many of
the four site calls ran, whether the captcha-fetch step ran, whether the
captcha text came from a fresh OCR solve (as opposed to the
caller-supplied text), and the text handed to `validateCaptchaAjax`. -/
structure AttemptTrace where
  networkCalls : Nat
  captchaFetched : Bool
  freshSolve : Bool
  usedCaptcha : Option String
deriving DecidableEq, Repr

/-- Steps 4-6 of `ViolationRepository.lookupViolations`
(config/index.ts:292-314): AJAX validation, result fetch, parse and
count. -/
def finishAttempt (env : AttemptEnv) (plate vehicleType captchaText : String)
    (calls : Nat) (fetched fresh : Bool) : Except String LookupResult × AttemptTrace :=
  match env.validate plate vehicleType captchaText with
  | .error e => (.error e, ⟨calls + 1, fetched, fresh, some captchaText⟩)
  | .ok redirectUrl =>
    match env.fetchResult redirectUrl with
    | .error e => (.error e, ⟨calls + 2, fetched, fresh, some captchaText⟩)
    | .ok doc =>
      let violations := parseResultHtml doc
      let counts := calculateViolationCounts violations
      (.ok { status := LookupStatus.ok
             data := some { plate := plate, vehicleType := vehicleType
                            captcha := some captchaText
                            violations := some violations
                            totalViolations := some violations.length
                            totalPaidViolations := some counts.totalPaidViolations
                            totalUnpaidViolations := some counts.totalUnpaidViolations } },
       ⟨calls + 2, fetched, fresh, some captchaText⟩)

/-- `ViolationRepository.lookupViolations` (config/index.ts:270-321): init
session, then — when `forceRefreshCaptcha` or no truthy caller captcha —
fetch a captcha image and call `solveCaptcha(buffer, ct, options.captchaText)`,
which returns the caller's text when it is truthy and only otherwise
performs an OCR solve; finally validate, fetch and parse.  Thrown errors
propagate as their message. -/
def lookupViolations (env : AttemptEnv) (plate vehicleType : String)
    (options : LookupOptions) (forceRefreshCaptcha : Bool) :
    Except String LookupResult × AttemptTrace :=
  match env.initSession with
  | .error e => (.error e, ⟨1, false, false, none⟩)
  | .ok _ =>
    if forceRefreshCaptcha || !(optTruthy options.captchaText) then
      match env.fetchCaptcha with
      | .error e => (.error e, ⟨2, true, false, none⟩)
      | .ok img =>
        if optTruthy options.captchaText then
          finishAttempt env plate vehicleType (options.captchaText.getD "") 2 true false
        else
          match env.solve img with
          | .error e => (.error e, ⟨2, true, true, none⟩)
          | .ok captchaText => finishAttempt env plate vehicleType captchaText 2 true true
    else
      finishAttempt env plate vehicleType (options.captchaText.getD "") 1 false false

/-- `ViolationService.isRetryableError` (part_013:268-291): substring
match on the error message.  (The JS `if (!error) return false` guard
coincides with this on message strings: no listed substring occurs in
the empty message.) -/
def isRetryableError (msg : String) : Bool :=
  jsIncludes msg "Captcha validation failed" || jsIncludes msg "404" ||
  jsIncludes msg "403" || jsIncludes msg "500" || jsIncludes msg "502" ||
  jsIncludes msg "503" || jsIncludes msg "504" || jsIncludes msg "Timeout" ||
  jsIncludes msg "Server error" || jsIncludes msg "ECONNABORTED" ||
  jsIncludes msg "ETIMEDOUT"

/-- The narrower substring set of `lookupWithRetry` (part_013:233-239)
that clears `options.captchaText` and increments `totalRetryCaptcha`
before a retry. -/
def clearsCaptcha (msg : String) : Bool :=
  jsIncludes msg "Captcha validation failed" || jsIncludes msg "404" ||
  jsIncludes msg "403" || jsIncludes msg "Timeout" || jsIncludes msg "Server error"

/-- The `lookupWithRetry` exhaustion result (part_013:252-260):
`lastError?.message || 'Unknown error occurred'` plus the captcha
regeneration count. -/
def exhaustedResult (plate vehicleType : String) (lastError : Option String)
    (counter : Nat) : LookupResult :=
  { status := LookupStatus.error
    message := some (match lastError with
      | some m => if m = "" then "Unknown error occurred" else m
      | none => "Unknown error occurred")
    data := some { plate := plate, vehicleType := vehicleType
                   totalRetryCaptcha := some counter } }

/-- `if (result.status === 'ok' && result.data) result.data.totalRetryCaptcha = ...`
(part_013:204-206). -/
def attachRetryCount (r : LookupResult) (counter : Nat) : LookupResult :=
  match r.status, r.data with
  | LookupStatus.ok, some d => { r with data := some { d with totalRetryCaptcha := some counter } }
  | _, _ => r

/-- Outcome of one `lookupWithRetry` call: the returned `LookupResult`
and the trace of every attempt executed, in order. -/
structure RetryOutcome where
  result : LookupResult
  traces : List AttemptTrace

/-- The `for (attempt = 1; attempt <= maxRetries + 1; attempt++)` loop of
`ViolationService.lookupWithRetry` (part_013:192-249), with the mutation
of `options.captchaText` made explicit loop state.  The fuel argument
counts the remaining loop iterations; the fuel-exhausted case is the
fall-through return after the loop. -/
def retryLoop (envs : Nat → AttemptEnv) (plate vehicleType : String) (maxRetries : Nat) :
    Nat → Nat → Option String → Option String → Nat → List AttemptTrace → RetryOutcome
  | 0, _attempt, _captchaOpt, lastError, counter, traces =>
    { result := exhaustedResult plate vehicleType lastError counter, traces := traces }
  | fuel + 1, attempt, captchaOpt, _lastError, counter, traces =>
    match (lookupViolations (envs attempt) plate vehicleType
        { captchaText := captchaOpt } (decide (1 < attempt))).1 with
    | .ok r =>
      { result := attachRetryCount r counter
        traces := traces ++ [(lookupViolations (envs attempt) plate vehicleType
          { captchaText := captchaOpt } (decide (1 < attempt))).2] }
    | .error e =>
      if !(isRetryableError e) || decide (maxRetries < attempt) then
        { result := exhaustedResult plate vehicleType (some e) counter
          traces := traces ++ [(lookupViolations (envs attempt) plate vehicleType
            { captchaText := captchaOpt } (decide (1 < attempt))).2] }
      else if clearsCaptcha e then
        retryLoop envs plate vehicleType maxRetries fuel (attempt + 1) none (some e)
          (counter + 1)
          (traces ++ [(lookupViolations (envs attempt) plate vehicleType
            { captchaText := captchaOpt } (decide (1 < attempt))).2])
      else
        retryLoop envs plate vehicleType maxRetries fuel (attempt + 1) captchaOpt (some e)
          counter
          (traces ++ [(lookupViolations (envs attempt) plate vehicleType
            { captchaText := captchaOpt } (decide (1 < attempt))).2])

/-- `ViolationService.lookupWithRetry` (part_013:183-261): run the loop
starting at attempt 1 with the caller's captcha text as the mutable
cache. -/
def lookupWithRetry (envs : Nat → AttemptEnv) (plate vehicleType : String)
    (options : LookupOptions) (maxRetries : Nat) : RetryOutcome :=
  retryLoop envs plate vehicleType maxRetries (maxRetries + 1) 1 options.captchaText none 0 []

/-- JS `String.prototype.toUpperCase` on one character, inverse of
`jsCharToLower` on the same alphabets. -/
def jsCharToUpper (c : Char) : Char :=
  let n := c.toNat
  if 97 ≤ n ∧ n ≤ 122 then Char.ofNat (n - 32)
  else if 0xE0 ≤ n ∧ n ≤ 0xFE ∧ n ≠ 0xF7 then Char.ofNat (n - 32)
  else if n = 0x103 ∨ n = 0x111 ∨ n = 0x129 ∨ n = 0x169 ∨ n = 0x1A1 ∨ n = 0x1B0 then
    Char.ofNat (n - 1)
  else if 0x1EA1 ≤ n ∧ n ≤ 0x1EF9 ∧ n % 2 = 1 then Char.ofNat (n - 1)
  else c

/-- `plate.replace(/[\s-]/g, '').toUpperCase()` (part_013:38). -/
def cleanPlate (plate : String) : String :=
  String.mk ((plate.toList.filter
    (fun c => !(c == ' ' || c == '\t' || c == '\n' || c == '\r' || c == '-'))).map jsCharToUpper)

/-- `const validVehicleTypes = ['1', '2', '3']` (part_013:30). -/
def validVehicleTypes : List String := ["1", "2", "3"]

/-- Outcome of one `ViolationService.lookupByPlate` call, with the
attempt count and site-call count made observable (an `error` result
models a thrown validation error). -/
structure ServiceOutcome where
  result : Except String LookupResult
  attempts : Nat
  networkCalls : Nat

/-- `ViolationService.lookupByPlate` (part_013:19-53): input validation
(both throws happen before any network call), plate normalization, then
the retry loop with the default `maxRetries = 5`.  The post-success
metadata (`lookupTime`, `source`) involves the wall clock and is not
modelled. -/
def lookupByPlate (envs : Nat → AttemptEnv) (plate vehicleType : String)
    (options : LookupOptions) : ServiceOutcome :=
  if plate = "" ∨ vehicleType = "" then
    { result := Except.error "Plate and vehicleType are required"
      attempts := 0, networkCalls := 0 }
  else if !(validVehicleTypes.contains vehicleType) then
    { result := Except.error
        "Invalid vehicle type. Must be 1 (Car), 2 (Motorcycle), or 3 (Electric bicycle)"
      attempts := 0, networkCalls := 0 }
  else
    let run := lookupWithRetry envs (cleanPlate plate) vehicleType options 5
    { result := Except.ok run.result
      attempts := run.traces.length
      networkCalls := (run.traces.map (·.networkCalls)).sum }

/-- A stub environment whose very first step always raises the 500
ServerError message. -/
def serverErrEnv : AttemptEnv :=
  { initSession := Except.error "500 - Server error. Please try again later."
    fetchCaptcha := Except.error "500 - Server error. Please try again later."
    solve := fun _ => Except.error "500 - Server error. Please try again later."
    validate := fun _ _ _ => Except.error "500 - Server error. Please try again later."
    fetchResult := fun _ => Except.error "500 - Server error. Please try again later." }

/-- A stub environment that raises `msg` at `initSession` — like a raw
gateway error from axios, which `initSession` and `fetchCaptchaImage`
propagate unwrapped (config/index.ts:78-82 have no catch). -/
def failingFirstEnv (msg : String) : AttemptEnv :=
  { initSession := Except.error msg
    fetchCaptcha := Except.error msg
    solve := fun _ => Except.error msg
    validate := fun _ _ _ => Except.error msg
    fetchResult := fun _ => Except.error msg }

/-- A stub environment where every step succeeds; the OCR solve returns
the fixed text "FRESH" and the result page parses to no violations. -/
def okEnv : AttemptEnv :=
  { initSession := Except.ok ()
    fetchCaptcha := Except.ok "captcha-image"
    solve := fun _ => Except.ok "FRESH"
    validate := fun _ _ _ => Except.ok none
    fetchResult := fun _ => Except.ok { raw := "", containerPresent := false, formGroups := [] } }

/-- The raw axios message of an HTTP 502 reply reaching the retry loop
unwrapped: retryable (contains "502") yet outside the captcha-clearing
substring set. -/
def rawGatewayMsg : String := "Request failed with status code 502"

/-- A two-phase environment family: attempt 1 fails at `initSession`
with `msg`, every later attempt runs against the all-ok stub. -/
def twoPhaseEnvs (msg : String) : Nat → AttemptEnv :=
  fun n => if n = 1 then failingFirstEnv msg else okEnv

/-- The `LookupResult` of a successful attempt against `okEnv` that
validated with captcha text `c`. -/
def okEnvResult (c : String) : LookupResult :=
  { status := LookupStatus.ok
    data := some { plate := "51K67179", vehicleType := "1", captcha := some c
                   violations := some [], totalViolations := some 0
                   totalPaidViolations := some 0, totalUnpaidViolations := some 0 } }

/-- `createHttpClient` (part_007:191-201) at the allocation level: `new
CookieJar()` allocates one fresh jar; jars are identified by the
allocation counter at creation time. -/
def createHttpClient (next : Nat) : Nat × Nat :=
  (next, next + 1)

/-- The state a `ViolationRepository` instance holds: `this.client`, i.e.
the identity of the jar-bearing HTTP client created in its constructor. -/
structure ViolationRepositoryState where
  clientJar : Nat
deriving DecidableEq, Repr

/-- `new ViolationRepository()` (config/index.ts:71-73): the constructor
calls `createHttpClient()` exactly once. -/
def violationRepositoryNew (next : Nat) : ViolationRepositoryState × Nat :=
  let p := createHttpClient next
  ({ clientJar := p.1 }, p.2)

/-- The state a `ViolationService` instance holds: the repository built
in its constructor (part_013:7-9). -/
structure ViolationServiceState where
  violationRepository : ViolationRepositoryState

/-- `new ViolationService()` (part_013:7-9): constructs one repository. -/
def violationServiceNew (next : Nat) : ViolationServiceState × Nat :=
  let p := violationRepositoryNew next
  ({ violationRepository := p.1 }, p.2)

/-- One repository-level lookup call at the allocation level:
`lookupViolations` reads `this.client` on every step (and `initSession`
re-fetches cookies *into* it) but never constructs a client, so the call
returns the jar it used, the unchanged repository state and the
unchanged allocation counter. -/
def lookupCallJar (repo : ViolationRepositoryState) (next : Nat) :
    Nat × ViolationRepositoryState × Nat :=
  (repo.clientJar, repo, next)

/-- C3: the claim states the diff key is derived only from fields stable
across lookups (time plus location/description) and never from
`violationNumber`.  The code's key is
`` `${violationNumber || ''}-${violationTime || ''}` ``: two violations
agreeing on time, location and description but differing in
`violationNumber` get different keys, refuting the claim. -/
theorem getViolationKey_uses_violationNumber :
    c3violA.violationTime = c3violB.violationTime ∧
    c3violA.location = c3violB.location ∧
    c3violA.violation = c3violB.violation ∧
    getViolationKey c3violA ≠ getViolationKey c3violB := by
  refine ⟨rfl, rfl, rfl, ?_⟩
  decide

/-- C3 (amended): the diff key is derived from exactly the pair
(`violationNumber`, `violationTime`): any two violations agreeing on
those two fields share a key — location and description never enter. -/
theorem getViolationKey_determined_by_number_and_time (v w : Violation)
    (hn : v.violationNumber = w.violationNumber)
    (ht : v.violationTime = w.violationTime) :
    getViolationKey v = getViolationKey w := by
  simp [getViolationKey, hn, ht]

/-- Witness for `getViolationKey_determined_by_number_and_time` at two
concrete violations differing only in location. -/
theorem getViolationKey_determined_witness :
    c3violA.violationNumber = (c3violA |>.violationNumber) ∧
    getViolationKey c3violA =
      getViolationKey { c3violA with location := some "elsewhere" } :=
  ⟨rfl, getViolationKey_determined_by_number_and_time _ _ rfl rfl⟩

/-- Membership in the key→violation map built from a list coincides with
`any` over the list's keys. -/
theorem mapHasKey_of_map (A : List Violation) (k : String) :
    mapHasKey (A.map (fun v => (getViolationKey v, v))) k =
      A.any (fun w => getViolationKey w == k) := by
  induction A with
  | nil => rfl
  | cons a t ih => simp [mapHasKey, List.any_cons] at ih ⊢; rw [ih]

/-- C4: the diff computes `added = B \ A` and `removed = A \ B` as set
differences under the identity key, and `hasChanges` holds exactly when
one of them is non-empty. -/
theorem compareViolations_is_key_set_diff (A B : List Violation) :
    (compareViolations A B).newViolations = specSetDiffByKey B A ∧
    (compareViolations A B).removedViolations = specSetDiffByKey A B ∧
    ((compareViolations A B).hasChanges = true ↔
      ((compareViolations A B).newViolations ≠ [] ∨
       (compareViolations A B).removedViolations ≠ [])) := by
  refine ⟨?_, ?_, ?_⟩
  · simp [compareViolations, specSetDiffByKey, mapHasKey_of_map]
  · simp [compareViolations, specSetDiffByKey, mapHasKey_of_map]
  · simp only [compareViolations, Bool.or_eq_true, decide_eq_true_eq]
    constructor
    · rintro (h | h)
      · exact Or.inl (List.ne_nil_of_length_pos h)
      · exact Or.inr (List.ne_nil_of_length_pos h)
    · rintro (h | h)
      · exact Or.inl (List.length_pos.mpr h)
      · exact Or.inr (List.length_pos.mpr h)

/-- C5: first-run policy — with no previous history snapshot, every
current violation is reported as new and `removedViolations` is empty
(for a successful lookup with a non-empty current set). -/
theorem compareWithPreviousLookup_first_run (cur : LookupResult)
    (d : LookupData) (vs : List Violation)
    (hok : cur.status = LookupStatus.ok)
    (hdata : cur.data = some d)
    (hviol : d.violations = some vs)
    (hne : vs ≠ []) :
    (compareWithPreviousLookup none cur).newViolations = vs ∧
    (compareWithPreviousLookup none cur).removedViolations = [] ∧
    (compareWithPreviousLookup none cur).hasChanges = true := by
  refine ⟨?_, rfl, rfl⟩
  simp [compareWithPreviousLookup, violationsOf, hdata, hviol]

/-- Witness for `compareWithPreviousLookup_first_run` at a concrete
one-violation lookup result. -/
theorem compareWithPreviousLookup_first_run_witness :
    ({ status := LookupStatus.ok
       data := some { plate := "51K67179", vehicleType := "1"
                      violations := some [c3violA] } } : LookupResult).status
        = LookupStatus.ok ∧
    (compareWithPreviousLookup none
      { status := LookupStatus.ok
        data := some { plate := "51K67179", vehicleType := "1"
                       violations := some [c3violA] } }).newViolations = [c3violA] ∧
    (compareWithPreviousLookup none
      { status := LookupStatus.ok
        data := some { plate := "51K67179", vehicleType := "1"
                       violations := some [c3violA] } }).removedViolations = [] ∧
    (compareWithPreviousLookup none
      { status := LookupStatus.ok
        data := some { plate := "51K67179", vehicleType := "1"
                       violations := some [c3violA] } }).hasChanges = true := by
  refine ⟨rfl, ?_⟩
  exact compareWithPreviousLookup_first_run _ _ [c3violA] rfl rfl rfl (by simp)

/-- The `reduce`-style indicator sum counts the elements satisfying the
predicate. -/
theorem foldl_indicator_eq_countP (p : Violation → Bool) (vs : List Violation) (n : Nat) :
    vs.foldl (fun acc v => acc + (if p v then 1 else 0)) n = n + vs.countP p := by
  induction vs generalizing n with
  | nil => simp
  | cons a t ih =>
    rw [List.foldl_cons, ih, List.countP_cons]
    by_cases h : p a = true <;> simp [h] <;> omega

/-- C9: "Đã xử phạt" counts as paid only, "Chưa nộp phạt" as unpaid only,
the empty status as neither, and for lists restricted to these three
statuses `totalViolations` (the list length, see
`ViolationRepository.lookupViolations`) equals paid + unpaid + neither.
Matching is case-insensitive substring search. -/
theorem calculateViolationCounts_partition (vs : List Violation)
    (h : ∀ v ∈ vs, v.status = some "Đã xử phạt" ∨
          v.status = some "Chưa nộp phạt" ∨ v.status = some "") :
    isPaid (some "Đã xử phạt") = true ∧ isUnpaid (some "Đã xử phạt") = false ∧
    isPaid (some "Chưa nộp phạt") = false ∧ isUnpaid (some "Chưa nộp phạt") = true ∧
    isPaid (some "") = false ∧ isUnpaid (some "") = false ∧
    vs.length = (calculateViolationCounts vs).totalPaidViolations +
      (calculateViolationCounts vs).totalUnpaidViolations +
      (vs.filter (fun v => !(isPaid v.status) && !(isUnpaid v.status))).length := by
  refine ⟨by decide, by decide, by decide, by decide, by decide, by decide, ?_⟩
  simp only [calculateViolationCounts, foldl_indicator_eq_countP, Nat.zero_add]
  induction vs with
  | nil => simp
  | cons a t ih =>
    have ha := h a (List.mem_cons_self a t)
    have ht : ∀ v ∈ t, v.status = some "Đã xử phạt" ∨
        v.status = some "Chưa nộp phạt" ∨ v.status = some "" :=
      fun v hv => h v (List.mem_cons_of_mem a hv)
    have ih' := ih ht
    rcases ha with ha | ha | ha <;>
      simp only [List.length_cons, List.countP_cons, List.filter_cons, ha] <;>
      simp only [show isPaid (some "Đã xử phạt") = true from by decide,
        show isUnpaid (some "Đã xử phạt") = false from by decide,
        show isPaid (some "Chưa nộp phạt") = false from by decide,
        show isUnpaid (some "Chưa nộp phạt") = true from by decide,
        show isPaid (some "") = false from by decide,
        show isUnpaid (some "") = false from by decide] <;>
      simp <;> omega

/-- Witness for `calculateViolationCounts_partition` at a concrete
three-element list exercising all three statuses. -/
theorem calculateViolationCounts_partition_witness :
    (∀ v ∈ [{ c3violA with status := some "Đã xử phạt" },
            { c3violA with status := some "Chưa nộp phạt" },
            { c3violA with status := some "" }],
        v.status = some "Đã xử phạt" ∨ v.status = some "Chưa nộp phạt" ∨
          v.status = some "") ∧
    ([{ c3violA with status := some "Đã xử phạt" },
      { c3violA with status := some "Chưa nộp phạt" },
      { c3violA with status := some "" }] : List Violation).length =
      (calculateViolationCounts
        [{ c3violA with status := some "Đã xử phạt" },
         { c3violA with status := some "Chưa nộp phạt" },
         { c3violA with status := some "" }]).totalPaidViolations +
      (calculateViolationCounts
        [{ c3violA with status := some "Đã xử phạt" },
         { c3violA with status := some "Chưa nộp phạt" },
         { c3violA with status := some "" }]).totalUnpaidViolations +
      (([{ c3violA with status := some "Đã xử phạt" },
         { c3violA with status := some "Chưa nộp phạt" },
         { c3violA with status := some "" }] : List Violation).filter
          (fun v => !(isPaid v.status) && !(isUnpaid v.status))).length := by
  have hres := calculateViolationCounts_partition
    [{ c3violA with status := some "Đã xử phạt" },
     { c3violA with status := some "Chưa nộp phạt" },
     { c3violA with status := some "" }]
    (by intro v hv; simp at hv; rcases hv with h | h | h <;> simp [h])
  exact ⟨by intro v hv; simp at hv; rcases hv with h | h | h <;> simp [h],
    hres.2.2.2.2.2.2⟩

/-- C8 counterexample: at confidence 25% with raw text "O0I1" the
correction table is applied (the caller receives "0OIl" ≠ "O0I1"), but
no low-confidence signal reaches the caller: the caller-visible result
is byte-for-byte the same as for a 45%-confidence run, and the only
difference between the two runs is a `console.warn` line. -/
theorem solveWithTesseract_low_confidence_only_logs :
    (solveWithTesseract { text := "O0I1", confidence := 25 }).result
        = Except.ok "0OIl" ∧
    (solveWithTesseract { text := "O0I1", confidence := 25 }).result
        = (solveWithTesseract { text := "O0I1", confidence := 45 }).result ∧
    (solveWithTesseract { text := "O0I1", confidence := 25 }).warnings
        = ["[WARN] Low confidence score: 25% - result might be inaccurate"] ∧
    (solveWithTesseract { text := "O0I1", confidence := 45 }).warnings = [] := by
  exact ⟨rfl, rfl, rfl, rfl⟩

/-- C8 (amended): at confidence 25% with raw text "O0I1" the adapter
applies the confusion table so the output "0OIl" differs from the raw
text, and the low-confidence condition (< 30%) produces only a console
warning: the value returned to the caller is a bare string carrying no
low-confidence indication, identical to the result of a run above the
threshold. -/
theorem solveWithTesseract_correction_applied :
    solveWithTesseract { text := "O0I1", confidence := 25 }
        = { result := Except.ok "0OIl"
            warnings := ["[WARN] Low confidence score: 25% - result might be inaccurate"] } ∧
    ("0OIl" : String) ≠ "O0I1" ∧
    (solveWithTesseract { text := "O0I1", confidence := 25 }).result
        = (solveWithTesseract { text := "O0I1", confidence := 45 }).result := by
  exact ⟨rfl, by decide, rfl⟩

/-- C10: whenever the violation-container markup yields no parsed
records, `parseResultHtml` returns `[]` exactly when the HTML lacks the
substring "Đội CSGT"; when the substring is present it returns the
single sentinel record with empty plate, `violationNumber` 0, the
diagnostic message and a `rawPreview` excerpt of the HTML. -/
theorem parseResultHtml_fallback (doc : HtmlDoc)
    (h : parseStructured doc = []) :
    parseResultHtml doc =
      (if jsIncludes doc.raw "Đội CSGT" then [fallbackViolation doc.raw] else []) ∧
    (fallbackViolation doc.raw).plate = "" ∧
    (fallbackViolation doc.raw).violationNumber = 0 ∧
    (fallbackViolation doc.raw).message =
      some "Violation found - need to parse HTML structure in more detail" ∧
    (fallbackViolation doc.raw).rawPreview =
      some (jsSubstring doc.raw (jsIndexOf doc.raw "Biển kiểm soát")
        (jsIndexOf doc.raw "Biển kiểm soát" + 500)) := by
  refine ⟨?_, rfl, rfl, rfl, rfl⟩
  simp [parseResultHtml, h]

/-- Witness for `parseResultHtml_fallback`: a page whose container is
absent but whose body mentions "Đội CSGT" yields exactly the sentinel. -/
theorem parseResultHtml_fallback_witness :
    parseStructured { raw := "trang Đội CSGT", containerPresent := false, formGroups := [] } = [] ∧
    parseResultHtml { raw := "trang Đội CSGT", containerPresent := false, formGroups := [] } =
      [fallbackViolation "trang Đội CSGT"] := by
  refine ⟨rfl, ?_⟩
  have hres := parseResultHtml_fallback
    { raw := "trang Đội CSGT", containerPresent := false, formGroups := [] } rfl
  rw [hres.1]
  decide

/-- A message classified by the 5xx wrapper (it contains "Server error")
is non-empty. -/
theorem ne_empty_of_serverError {m : String}
    (h : jsIncludes m "Server error" = true) : m ≠ "" := by
  intro hm
  rw [hm] at h
  exact absurd h (by decide)

/-- A "Server error" message satisfies `isRetryableError`. -/
theorem isRetryableError_of_serverError {m : String}
    (h : jsIncludes m "Server error" = true) : isRetryableError m = true := by
  simp [isRetryableError, h]

/-- A "Server error" message satisfies `clearsCaptcha`. -/
theorem clearsCaptcha_of_serverError {m : String}
    (h : jsIncludes m "Server error" = true) : clearsCaptcha m = true := by
  simp [clearsCaptcha, h]

/-- Unfolding `retryLoop` one iteration at a successful attempt. -/
theorem retryLoop_step_ok (envs : Nat → AttemptEnv) (p vt : String)
    (mr fuel fl a : Nat) (hf : fuel = fl + 1) (cap le : Option String)
    (cnt : Nat) (trs : List AttemptTrace) (r : LookupResult)
    (h : (lookupViolations (envs a) p vt { captchaText := cap } (decide (1 < a))).1
      = Except.ok r) :
    retryLoop envs p vt mr fuel a cap le cnt trs =
      { result := attachRetryCount r cnt
        traces := trs ++ [(lookupViolations (envs a) p vt { captchaText := cap }
          (decide (1 < a))).2] } := by
  subst hf
  simp only [retryLoop, h]

/-- Unfolding `retryLoop` one iteration at a failing attempt whose error
is retryable and in the captcha-clearing set, below the attempt bound. -/
theorem retryLoop_step_clear (envs : Nat → AttemptEnv) (p vt : String)
    (mr fuel fl a : Nat) (hf : fuel = fl + 1) (cap le : Option String)
    (cnt : Nat) (trs : List AttemptTrace) (e : String)
    (h : (lookupViolations (envs a) p vt { captchaText := cap } (decide (1 < a))).1
      = Except.error e)
    (hr : isRetryableError e = true) (hle : a ≤ mr) (hc : clearsCaptcha e = true) :
    retryLoop envs p vt mr fuel a cap le cnt trs =
      retryLoop envs p vt mr fl (a + 1) none (some e) (cnt + 1)
        (trs ++ [(lookupViolations (envs a) p vt { captchaText := cap }
          (decide (1 < a))).2]) := by
  subst hf
  simp only [retryLoop, h, hr, hc]
  simp [Nat.not_lt.mpr hle]

/-- Unfolding `retryLoop` one iteration at a failing attempt whose error
is retryable but outside the captcha-clearing set, below the attempt
bound: the cached captcha text survives and the counter is unchanged. -/
theorem retryLoop_step_keep (envs : Nat → AttemptEnv) (p vt : String)
    (mr fuel fl a : Nat) (hf : fuel = fl + 1) (cap le : Option String)
    (cnt : Nat) (trs : List AttemptTrace) (e : String)
    (h : (lookupViolations (envs a) p vt { captchaText := cap } (decide (1 < a))).1
      = Except.error e)
    (hr : isRetryableError e = true) (hle : a ≤ mr) (hc : clearsCaptcha e = false) :
    retryLoop envs p vt mr fuel a cap le cnt trs =
      retryLoop envs p vt mr fl (a + 1) cap (some e) cnt
        (trs ++ [(lookupViolations (envs a) p vt { captchaText := cap }
          (decide (1 < a))).2]) := by
  subst hf
  simp only [retryLoop, h, hr, hc]
  simp [Nat.not_lt.mpr hle]

/-- Unfolding `retryLoop` at a failing attempt past the bound: the loop
breaks and returns the consolidated error result. -/
theorem retryLoop_step_break (envs : Nat → AttemptEnv) (p vt : String)
    (mr fuel fl a : Nat) (hf : fuel = fl + 1) (cap le : Option String)
    (cnt : Nat) (trs : List AttemptTrace) (e : String)
    (h : (lookupViolations (envs a) p vt { captchaText := cap } (decide (1 < a))).1
      = Except.error e)
    (hgt : mr < a) :
    retryLoop envs p vt mr fuel a cap le cnt trs =
      { result := exhaustedResult p vt (some e) cnt
        traces := trs ++ [(lookupViolations (envs a) p vt { captchaText := cap }
          (decide (1 < a))).2] } := by
  subst hf
  simp only [retryLoop, h]
  simp [hgt]

/-- Under uniformly failing attempts with "Server error"-classified
messages, the retry loop runs through all its fuel, appends one trace
per attempt, clears the captcha (incrementing the counter) on every
retry, and ends with the last attempt's message. -/
theorem retryLoop_uniform_failure (envs : Nat → AttemptEnv) (p vt : String)
    (mr : Nat) (m : Nat → String)
    (hfail : ∀ i (o : LookupOptions) (b : Bool),
      (lookupViolations (envs i) p vt o b).1 = Except.error (m i))
    (hsrv : ∀ i, jsIncludes (m i) "Server error" = true) :
    ∀ fuel attempt cap le cnt trs, mr + 2 = attempt + fuel → 1 ≤ fuel →
      (retryLoop envs p vt mr fuel attempt cap le cnt trs).traces.length
          = trs.length + fuel ∧
      (retryLoop envs p vt mr fuel attempt cap le cnt trs).result =
        exhaustedResult p vt (some (m (attempt + fuel - 1))) (cnt + (fuel - 1)) := by
  intro fuel
  induction fuel with
  | zero => intro attempt cap le cnt trs _ hpos; omega
  | succ fl ih =>
    intro attempt cap le cnt trs harith _
    rcases Nat.eq_zero_or_pos fl with hfl | hfl
    · subst hfl
      have hgt : mr < attempt := by omega
      rw [retryLoop_step_break envs p vt mr 1 0 attempt rfl cap le cnt trs (m attempt)
        (hfail attempt _ _) hgt]
      simp
    · have hle : attempt ≤ mr := by omega
      rw [retryLoop_step_clear envs p vt mr (fl + 1) fl attempt rfl cap le cnt trs
        (m attempt) (hfail attempt _ _)
        (isRetryableError_of_serverError (hsrv attempt)) hle
        (clearsCaptcha_of_serverError (hsrv attempt))]
      have := ih (attempt + 1) none (some (m attempt)) (cnt + 1)
        (trs ++ [(lookupViolations (envs attempt) p vt { captchaText := cap }
          (decide (1 < attempt))).2]) (by omega) hfl
      rcases this with ⟨hlen, hres⟩
      refine ⟨?_, ?_⟩
      · rw [hlen]; simp; omega
      · rw [hres]
        have h1 : attempt + 1 + fl - 1 = attempt + (fl + 1) - 1 := by omega
        have h2 : cnt + 1 + (fl - 1) = cnt + (fl + 1 - 1) := by omega
        rw [h1, h2]

/-- C2: with every pipeline attempt failing with a ServerError-classified
error (its message contains "Server error", produced by the repository's
5xx wrapper), a call with `maxRetries = 5` performs exactly 6 attempts
and returns a status-`error` result whose message is the last attempt's
error message and whose `data.totalRetryCaptcha` is 5 — one captcha
refresh per retry, none for attempt 1. -/
theorem lookupWithRetry_exhaustion (envs : Nat → AttemptEnv)
    (plate vehicleType : String) (opts : LookupOptions) (m : Nat → String)
    (hfail : ∀ i (o : LookupOptions) (b : Bool),
      (lookupViolations (envs i) plate vehicleType o b).1 = Except.error (m i))
    (hsrv : ∀ i, jsIncludes (m i) "Server error" = true) :
    (lookupWithRetry envs plate vehicleType opts 5).traces.length = 6 ∧
    (lookupWithRetry envs plate vehicleType opts 5).result =
      { status := LookupStatus.error
        message := some (m 6)
        data := some { plate := plate, vehicleType := vehicleType
                       totalRetryCaptcha := some 5 } } := by
  have h := retryLoop_uniform_failure envs plate vehicleType 5 m hfail hsrv
    (5 + 1) 1 opts.captchaText none 0 [] (by omega) (by omega)
  rcases h with ⟨hlen, hres⟩
  refine ⟨by simpa using hlen, ?_⟩
  rw [lookupWithRetry, hres]
  simp [exhaustedResult, ne_empty_of_serverError (hsrv 6)]

/-- Witness for `lookupWithRetry_exhaustion` with the always-500 stub. -/
theorem lookupWithRetry_exhaustion_witness :
    (∀ (_i : Nat) (o : LookupOptions) (b : Bool),
      (lookupViolations serverErrEnv "51K67179" "1" o b).1 =
        Except.error "500 - Server error. Please try again later.") ∧
    (lookupWithRetry (fun _ => serverErrEnv) "51K67179" "1"
      { captchaText := none } 5).traces.length = 6 ∧
    (lookupWithRetry (fun _ => serverErrEnv) "51K67179" "1"
      { captchaText := none } 5).result =
      { status := LookupStatus.error
        message := some "500 - Server error. Please try again later."
        data := some { plate := "51K67179", vehicleType := "1"
                       totalRetryCaptcha := some 5 } } := by
  have hs : jsIncludes "500 - Server error. Please try again later." "Server error"
      = true := by decide
  refine ⟨fun _i o b => rfl, ?_⟩
  exact lookupWithRetry_exhaustion (fun _ => serverErrEnv) "51K67179" "1"
    { captchaText := none } (fun _ => "500 - Server error. Please try again later.")
    (fun _i o b => rfl) (fun _i => hs)

/-- C1 counterexample: with a manual captcha "ABCD" supplied on attempt 1
and attempt 1 failing with a retryable error outside the clearing set,
attempt 2 — a retry — fetches a new captcha image (`captchaFetched`) but
performs no fresh solve (`freshSolve = false`) and validates with the
stale caller-supplied text "ABCD": the previously supplied captcha is
not discarded on this retry, refuting "regardless of which retryable
error caused the retry". -/
theorem lookupWithRetry_stale_captcha_on_retry :
    isRetryableError rawGatewayMsg = true ∧
    clearsCaptcha rawGatewayMsg = false ∧
    (lookupWithRetry (twoPhaseEnvs rawGatewayMsg)
      "51K67179" "1" { captchaText := some "ABCD" } 5).traces =
      [{ networkCalls := 1, captchaFetched := false, freshSolve := false, usedCaptcha := none },
       { networkCalls := 4, captchaFetched := true, freshSolve := false,
         usedCaptcha := some "ABCD" }] := by
  refine ⟨by decide, by decide, ?_⟩
  rw [lookupWithRetry,
    retryLoop_step_keep (twoPhaseEnvs rawGatewayMsg)
      "51K67179" "1" 5 (5 + 1) 5 1 rfl (some "ABCD") none 0 [] rawGatewayMsg rfl
      (by decide) (by omega) (by decide),
    retryLoop_step_ok (twoPhaseEnvs rawGatewayMsg)
      "51K67179" "1" 5 5 4 (1 + 1) rfl (some "ABCD") (some rawGatewayMsg) 0 _
      (okEnvResult "ABCD") rfl]
  rfl

/-- C1 (amended): on a retry attempt (attempt 2 here) the captcha-fetch
step runs whenever the attempt reaches the captcha stage, but the
previously supplied text is discarded and freshly re-solved only when
the retry-triggering error message lies in the clearing set
("Captcha validation failed" / "404" / "403" / "Timeout" /
"Server error"); for any other retryable error the caller-supplied text
is reused on the retry. -/
theorem lookupWithRetry_refresh_depends_on_clearing (msg manual : String)
    (hr : isRetryableError msg = true) (hm : manual ≠ "") :
    ((lookupWithRetry (twoPhaseEnvs msg)
        "51K67179" "1" { captchaText := some manual } 5).traces.map
          (·.captchaFetched)) = [false, true] ∧
    (clearsCaptcha msg = true →
      ((lookupWithRetry (twoPhaseEnvs msg)
        "51K67179" "1" { captchaText := some manual } 5).traces.map
          (fun t => (t.freshSolve, t.usedCaptcha))) =
        [(false, none), (true, some "FRESH")]) ∧
    (clearsCaptcha msg = false →
      ((lookupWithRetry (twoPhaseEnvs msg)
        "51K67179" "1" { captchaText := some manual } 5).traces.map
          (fun t => (t.freshSolve, t.usedCaptcha))) =
        [(false, none), (false, some manual)]) := by
  have hbne : (manual != "") = true := by simp [bne_iff_ne, hm]
  have hok2 : lookupViolations (twoPhaseEnvs msg (1 + 1)) "51K67179" "1"
      { captchaText := some manual } (decide (1 < 1 + 1)) =
      (Except.ok (okEnvResult manual),
       { networkCalls := 4, captchaFetched := true, freshSolve := false,
         usedCaptcha := some manual }) := by
    show lookupViolations okEnv "51K67179" "1"
      { captchaText := some manual } true = _
    simp [lookupViolations, okEnv, optTruthy, hbne, finishAttempt, okEnvResult,
      parseResultHtml, parseStructured, calculateViolationCounts,
      show jsIncludes "" "Đội CSGT" = false from by decide]
  rcases Bool.eq_false_or_eq_true (clearsCaptcha msg) with hcc | hcc
  · rw [lookupWithRetry,
      retryLoop_step_clear (twoPhaseEnvs msg)
        "51K67179" "1" 5 (5 + 1) 5 1 rfl (some manual) none 0 [] msg rfl hr (by omega) hcc,
      retryLoop_step_ok (twoPhaseEnvs msg)
        "51K67179" "1" 5 5 4 (1 + 1) rfl none (some msg) 1 _ (okEnvResult "FRESH") rfl]
    exact ⟨rfl, fun _ => rfl, fun hco => absurd hcc (by simp [hco])⟩
  · rw [lookupWithRetry,
      retryLoop_step_keep (twoPhaseEnvs msg)
        "51K67179" "1" 5 (5 + 1) 5 1 rfl (some manual) none 0 [] msg rfl hr (by omega) hcc,
      retryLoop_step_ok (twoPhaseEnvs msg)
        "51K67179" "1" 5 5 4 (1 + 1) rfl (some manual) (some msg) 0 _ (okEnvResult manual)
        (by rw [hok2])]
    rw [hok2]
    exact ⟨rfl, fun hco => absurd hco (by simp [hcc]), fun _ => rfl⟩

/-- Witness for `lookupWithRetry_refresh_depends_on_clearing` at the raw
502 message and manual captcha "ABCD". -/
theorem lookupWithRetry_refresh_witness :
    isRetryableError rawGatewayMsg = true ∧ ("ABCD" : String) ≠ "" ∧
    ((lookupWithRetry (twoPhaseEnvs rawGatewayMsg)
        "51K67179" "1" { captchaText := some "ABCD" } 5).traces.map
          (·.captchaFetched)) = [false, true] := by
  refine ⟨by decide, by decide, ?_⟩
  exact (lookupWithRetry_refresh_depends_on_clearing rawGatewayMsg "ABCD"
    (by decide) (by decide)).1

/-- C7: any lookup with a vehicle type outside {"1","2","3"} is rejected
before the pipeline runs: the call throws an invalid-input error, makes
zero network calls and zero attempts.  (An empty plate or vehicle type
hits the earlier "required" throw, equally pre-network.) -/
theorem lookupByPlate_invalid_input (envs : Nat → AttemptEnv)
    (plate vehicleType : String) (opts : LookupOptions)
    (hv : validVehicleTypes.contains vehicleType = false) :
    (lookupByPlate envs plate vehicleType opts).attempts = 0 ∧
    (lookupByPlate envs plate vehicleType opts).networkCalls = 0 ∧
    ((lookupByPlate envs plate vehicleType opts).result =
        Except.error "Plate and vehicleType are required" ∨
     (lookupByPlate envs plate vehicleType opts).result =
        Except.error
          "Invalid vehicle type. Must be 1 (Car), 2 (Motorcycle), or 3 (Electric bicycle)") := by
  have hv' : vehicleType ∉ validVehicleTypes := by
    intro hmem
    simp [validVehicleTypes] at hmem
    rcases hmem with h | h | h <;> subst h <;> exact absurd hv (by decide)
  by_cases hreq : plate = "" ∨ vehicleType = ""
  · simp [lookupByPlate, hreq]
  · simp [lookupByPlate, hreq, hv']

/-- Witness for `lookupByPlate_invalid_input` at `vehicleType = "9"`,
where the specific error is the invalid-vehicle-type message. -/
theorem lookupByPlate_invalid_input_witness :
    validVehicleTypes.contains "9" = false ∧
    (lookupByPlate (fun _ => okEnv) "51K67179" "9" { captchaText := none }).attempts = 0 ∧
    (lookupByPlate (fun _ => okEnv) "51K67179" "9" { captchaText := none }).networkCalls = 0 ∧
    (lookupByPlate (fun _ => okEnv) "51K67179" "9" { captchaText := none }).result =
      Except.error
        "Invalid vehicle type. Must be 1 (Car), 2 (Motorcycle), or 3 (Electric bicycle)" := by
  have h := lookupByPlate_invalid_input (fun _ => okEnv) "51K67179" "9"
    { captchaText := none } (by decide)
  exact ⟨by decide, h.1, h.2.1, by rfl⟩

/-- C6 counterexample: construct the service, run two consecutive lookup
calls (as `CronJobExecutionService` does for successive jobs, possibly
different plates): the second call uses exactly the jar the first call
used, and no new jar was allocated in between — session/cookie-jar state
persists across pipeline invocations, refuting "not reused by the
next". -/
theorem cookieJar_reused_across_calls :
    (lookupCallJar (violationServiceNew 0).1.violationRepository
        (violationServiceNew 0).2).1 =
      (lookupCallJar
        (lookupCallJar (violationServiceNew 0).1.violationRepository
          (violationServiceNew 0).2).2.1
        (lookupCallJar (violationServiceNew 0).1.violationRepository
          (violationServiceNew 0).2).2.2).1 ∧
    (lookupCallJar
        (lookupCallJar (violationServiceNew 0).1.violationRepository
          (violationServiceNew 0).2).2.1
        (lookupCallJar (violationServiceNew 0).1.violationRepository
          (violationServiceNew 0).2).2.2).2.2 = (violationServiceNew 0).2 := by
  exact ⟨rfl, rfl⟩

/-- C6 (amended): the cookie jar is allocated once, in the
`ViolationRepository` constructor; every lookup call through the same
service instance uses that same jar (`initSession` refreshes cookies
inside it per call, but the jar object persists), and lookup calls
allocate nothing. -/
theorem cookieJar_allocated_per_instance (n : Nat) :
    (lookupCallJar (violationServiceNew n).1.violationRepository
        (violationServiceNew n).2).1 = n ∧
    (lookupCallJar
        (lookupCallJar (violationServiceNew n).1.violationRepository
          (violationServiceNew n).2).2.1
        (lookupCallJar (violationServiceNew n).1.violationRepository
          (violationServiceNew n).2).2.2).1 = n ∧
    (lookupCallJar
        (lookupCallJar (violationServiceNew n).1.violationRepository
          (violationServiceNew n).2).2.1
        (lookupCallJar (violationServiceNew n).1.violationRepository
          (violationServiceNew n).2).2.2).2.2 = n + 1 := by
  exact ⟨rfl, rfl, rfl⟩

end VnTraffic
